import Mathlib

/-!
Verification of the GPU lock / preemption-retry module (`src/gpu/locks.rs`).

The module consists of two parts:

* `PriorityLock::wait` and `PriorityLock::should_break`, which probe or wait
  for the cross-process priority-flag lock file.  We embed them as pure
  functions over the outcome of the underlying OS lock call (which is
  environment input), recording which effects occur.

* The `locked_kernel!` state machine (`LockedFFTKernel` / `LockedMultiexpKernel`,
  generated once, generically): a slot holding `log_d`, `priority` and an
  `Option` kernel handle, with `init`, `free` and the retry loop `with`.
  We embed the loop with explicit fuel (the Rust loop is unbounded), an
  environment supplying the factory results and the closure results per call
  index, and a trace counting factory calls, closure calls, `free` calls and
  `PriorityLock::wait` invocations.
-/

namespace GpuLocks

/-- Modelled from the spec: the error enum `GPUError` is declared in
`super::error`, outside the file at hand.  The spec's error taxonomy names
`GPUDisabled`, `KernelUninitialized`, `GPUTaken` and a pass-through "other"
category carrying the underlying kernel-execution failure; the `other`
payload is modelled as a string message. -/
inductive GPUError where
  | GPUDisabled : GPUError
  | KernelUninitialized : GPUError
  | GPUTaken : GPUError
  | Other : String → GPUError
deriving DecidableEq, Repr

/-- `GPUResult<R>` from `super::error`. -/
abbrev GPUResult (R : Type) := Except GPUError R

/-- An OS-level I/O error as observed through `raw_os_error()`. -/
structure OsError where
  raw_os_error : Option Int
deriving DecidableEq, Repr

/-- `fs2::lock_contended_error()`: the fixed contention error
(EWOULDBLOCK/EAGAIN on Unix, raw code 11). -/
def lockContendedError : OsError := ⟨some 11⟩

/-- Outcome record for `PriorityLock::should_break`: the returned boolean,
whether a lock acquisition on the priority-flag file was attempted, whether a
warning was logged, and whether any lock claim is retained after the call
(the `File` handle is a temporary scoped to the probing statement, so it is
dropped — releasing the shared lock — before the function returns). -/
structure ProbeResult where
  result : Bool
  attemptedLock : Bool
  warned : Bool
  retainsLock : Bool
deriving DecidableEq, Repr

namespace PriorityLock

/-- `PriorityLock::should_break(priority)`.  `createOk` is whether
`File::create` on the priority lock file succeeds (`unwrap` panics otherwise,
modelled as `none`); `attempt` is the outcome of `try_lock_shared`
(`none` = acquired, `some err` = failed with `err`). -/
def should_break (priority : Bool) (createOk : Bool) (attempt : Option OsError) :
    Option ProbeResult :=
  if priority then
    some ⟨false, false, false, false⟩
  else if createOk then
    some (match attempt with
      | some err =>
          if err.raw_os_error = lockContendedError.raw_os_error then
            ⟨true, true, false, false⟩
          else
            ⟨false, true, true, false⟩
      | none => ⟨false, true, false, false⟩)
  else none

/-- Outcome record for `PriorityLock::wait`: whether the priority lock file
was touched (created and exclusively locked), whether a warning was logged,
and whether any lock claim is retained after the call (the `File` handle is a
temporary, dropped at the end of the statement). -/
structure WaitResult where
  touchedLock : Bool
  warned : Bool
  retainsLock : Bool
deriving DecidableEq, Repr

/-- `PriorityLock::wait(priority)`.  `createOk` is whether `File::create`
succeeds (`unwrap` panics otherwise, modelled as `none`); `lockErr` is the
error of the blocking `lock_exclusive` call, if any (a failure is logged as
a warning and the function proceeds). -/
def wait (priority : Bool) (createOk : Bool) (lockErr : Option OsError) :
    Option WaitResult :=
  if !priority then
    if createOk then some ⟨true, lockErr.isSome, false⟩
    else none
  else some ⟨false, false, false⟩

end PriorityLock

/-- The slot generated by `locked_kernel!`: `log_d`, `priority` and the
optional kernel handle. -/
structure LockedKernel (K : Type) where
  log_d : Nat
  priority : Bool
  kernel : Option K
deriving DecidableEq, Repr

/-- `$class::new(log_d, priority)`: starts with no kernel. -/
def LockedKernel.new (K : Type) (log_d : Nat) (priority : Bool) : LockedKernel K :=
  ⟨log_d, priority, none⟩

/-- Effect trace of a `with` call: number of `PriorityLock::wait` invocations,
kernel-factory invocations, closure invocations, and `free` invocations. -/
structure Trace where
  waitCalls : Nat
  factoryCalls : Nat
  closureCalls : Nat
  freeCalls : Nat
deriving DecidableEq, Repr

/-- The all-zero trace at the start of a call. -/
def Trace.zero : Trace := ⟨0, 0, 0, 0⟩

/-- Environment of a `with` call: whether `BELLMAN_NO_GPU` is set, the result
of the i-th kernel-factory invocation, and the result of the i-th closure
invocation on a given kernel (the closure takes `&mut K`, so it also returns
the possibly-mutated kernel). -/
structure Env (K R : Type) where
  no_gpu : Bool
  factory : Nat → Option K
  closure : Nat → K → GPUResult R × K

/-- `fn init(&mut self)`: if the kernel is absent, invoke
`PriorityLock::wait(self.priority)` and then the factory; otherwise no-op. -/
def LockedKernel.init {K R : Type} (env : Env K R) (s : LockedKernel K) (t : Trace) :
    LockedKernel K × Trace :=
  match s.kernel with
  | some _ => (s, t)
  | none =>
      (⟨s.log_d, s.priority, env.factory t.factoryCalls⟩,
       ⟨t.waitCalls + 1, t.factoryCalls + 1, t.closureCalls, t.freeCalls⟩)

/-- `fn free(&mut self)`: drop the kernel handle if present. -/
def LockedKernel.free {K : Type} (s : LockedKernel K) (t : Trace) :
    LockedKernel K × Trace :=
  (⟨s.log_d, s.priority, none⟩,
   ⟨t.waitCalls, t.factoryCalls, t.closureCalls, t.freeCalls + 1⟩)

/-- The `loop` inside `with`, run with explicit fuel (the Rust loop is
unbounded; `none` means the fuel ran out before the loop exited).  One fuel
unit is one loop iteration.  On `Err(GPUTaken)` the slot is freed and
re-initialized and the loop continues; any other error and success return;
an absent kernel returns `KernelUninitialized`. -/
def runWithLoop {K R : Type} (env : Env K R) :
    Nat → LockedKernel K → Trace → Option (GPUResult R × LockedKernel K × Trace)
  | 0, _, _ => none
  | fuel + 1, s, t =>
    match s.kernel with
    | some k =>
      let fr := env.closure t.closureCalls k
      let s1 : LockedKernel K := ⟨s.log_d, s.priority, some fr.2⟩
      let t1 : Trace := ⟨t.waitCalls, t.factoryCalls, t.closureCalls + 1, t.freeCalls⟩
      match fr.1 with
      | Except.ok v => some (Except.ok v, s1, t1)
      | Except.error e =>
          if e = GPUError.GPUTaken then
            let p1 := LockedKernel.free s1 t1
            let p2 := LockedKernel.init env p1.1 p1.2
            runWithLoop env fuel p2.1 p2.2
          else
            some (Except.error e, s1, t1)
    | none => some (Except.error GPUError.KernelUninitialized, s, t)

/-- `pub fn with<F, R>(&mut self, f) -> GPUResult<R>`: check `BELLMAN_NO_GPU`,
then `init`, then the retry loop.  (`with` is a Lean keyword, hence the
name `runWith`.) -/
def runWith {K R : Type} (env : Env K R) (fuel : Nat) (s : LockedKernel K) (t : Trace) :
    Option (GPUResult R × LockedKernel K × Trace) :=
  if env.no_gpu then
    some (Except.error GPUError.GPUDisabled, s, t)
  else
    let p := LockedKernel.init env s t
    runWithLoop env fuel p.1 p.2

/-! ### Theorems -/

/-- C7: `should_break(true)` always returns `false` without attempting any
lock acquisition; `should_break(false)` returns `true` exactly when the
non-blocking shared acquisition fails with the lock-contention error; any
other failure is logged as a warning and treated as `false`; on success the
shared lock is released immediately (no claim is retained). -/
theorem should_break_spec :
    (∀ createOk attempt,
        PriorityLock.should_break true createOk attempt = some ⟨false, false, false, false⟩) ∧
    (∀ err : OsError, err.raw_os_error = lockContendedError.raw_os_error →
        PriorityLock.should_break false true (some err) = some ⟨true, true, false, false⟩) ∧
    (∀ err : OsError, err.raw_os_error ≠ lockContendedError.raw_os_error →
        PriorityLock.should_break false true (some err) = some ⟨false, true, true, false⟩) ∧
    PriorityLock.should_break false true none = some ⟨false, true, false, false⟩ := by
  refine ⟨fun c a => rfl, fun err h => ?_, fun err h => ?_, rfl⟩
  · simp [PriorityLock.should_break, h]
  · simp [PriorityLock.should_break, h]

/-- Witness for `should_break_spec`: the contention error (raw code 11)
makes `should_break(false)` return `true`. -/
theorem should_break_spec_witness :
    (OsError.mk (some 11)).raw_os_error = lockContendedError.raw_os_error ∧
    PriorityLock.should_break false true (some ⟨some 11⟩) = some ⟨true, true, false, false⟩ :=
  ⟨rfl, should_break_spec.2.1 ⟨some 11⟩ rfl⟩

/-- C8: `wait(true)` is a no-op that never touches the priority-flag file;
`wait(false)` touches the file, blocks on an exclusive acquisition, retains
no claim afterwards, warns (and proceeds) exactly when that acquisition
fails, and panics (modelled as `none`) when the file cannot be created. -/
theorem wait_spec :
    (∀ createOk lockErr,
        PriorityLock.wait true createOk lockErr = some ⟨false, false, false⟩) ∧
    (∀ lockErr, PriorityLock.wait false true lockErr = some ⟨true, lockErr.isSome, false⟩) ∧
    (∀ lockErr, PriorityLock.wait false false lockErr = none) := by
  refine ⟨fun c l => rfl, fun l => rfl, fun l => rfl⟩

/-- C6: with `BELLMAN_NO_GPU` set, `with` returns `GPUDisabled` and the trace
is unchanged: the factory, the closure, `free` and `PriorityLock::wait` are
never invoked (so no lock file is touched). -/
theorem with_gpu_disabled_no_effects {K R : Type} (env : Env K R) (fuel : Nat)
    (s : LockedKernel K) (t : Trace) (h : env.no_gpu = true) :
    runWith env fuel s t = some (Except.error GPUError.GPUDisabled, s, t) := by
  simp [runWith, h]

/-- Witness for `with_gpu_disabled_no_effects` at a concrete environment. -/
theorem with_gpu_disabled_no_effects_witness :
    (Env.mk true (fun _ => (none : Option Unit)) (fun _ k => (Except.ok (0 : Nat), k))).no_gpu
        = true ∧
    runWith (Env.mk true (fun _ => (none : Option Unit)) (fun _ k => (Except.ok (0 : Nat), k)))
        5 (LockedKernel.new Unit 3 false) Trace.zero =
      some (Except.error GPUError.GPUDisabled, LockedKernel.new Unit 3 false, Trace.zero) :=
  ⟨rfl, with_gpu_disabled_no_effects _ 5 _ _ rfl⟩

/-- C10: the `GPUDisabled` early return leaves every field of the slot
(`log_d`, `priority` and the optional kernel handle) exactly as it was; in
particular a previously acquired kernel handle is not freed. -/
theorem with_gpu_disabled_preserves_slot {K R : Type} (env : Env K R) (fuel : Nat)
    (s : LockedKernel K) (t : Trace) (h : env.no_gpu = true) :
    (runWith env fuel s t).map (fun r => (r.1, r.2.1)) =
      some (Except.error GPUError.GPUDisabled, ⟨s.log_d, s.priority, s.kernel⟩) := by
  simp [runWith, h]

/-- Witness for `with_gpu_disabled_preserves_slot`: a slot holding a kernel
handle keeps it across the disabled-path return. -/
theorem with_gpu_disabled_preserves_slot_witness :
    (Env.mk true (fun _ => (none : Option Unit)) (fun _ k => (Except.ok (0 : Nat), k))).no_gpu
        = true ∧
    (runWith (Env.mk true (fun _ => (none : Option Unit))
            (fun _ k => (Except.ok (0 : Nat), k)))
        2 ⟨7, true, some ()⟩ Trace.zero).map (fun r => (r.1, r.2.1)) =
      some (Except.error GPUError.GPUDisabled, ⟨7, true, some ()⟩) :=
  ⟨rfl, with_gpu_disabled_preserves_slot _ 2 ⟨7, true, some ()⟩ Trace.zero rfl⟩

/-- C5: from an `Uninitialized` slot, if the factory returns `none`, `with`
returns `KernelUninitialized` after exactly one factory invocation, with the
closure never invoked, for every positive fuel (the loop exits on its first
iteration — no looping). -/
theorem with_uninitialized_fallback {K R : Type} (env : Env K R) (log_d : Nat)
    (prio : Bool) (fuel : Nat) (hg : env.no_gpu = false) (hf : env.factory 0 = none) :
    runWith env (fuel + 1) (LockedKernel.new K log_d prio) Trace.zero =
      some (Except.error GPUError.KernelUninitialized, ⟨log_d, prio, none⟩, ⟨1, 1, 0, 0⟩) := by
  simp [runWith, hg, LockedKernel.new, LockedKernel.init, Trace.zero, hf, runWithLoop]

/-- Witness for `with_uninitialized_fallback` at a concrete environment. -/
theorem with_uninitialized_fallback_witness :
    (Env.mk false (fun _ => (none : Option Unit)) (fun _ k => (Except.ok (0 : Nat), k))).no_gpu
        = false ∧
    (Env.mk false (fun _ => (none : Option Unit))
        (fun _ k => (Except.ok (0 : Nat), k))).factory 0 = none ∧
    runWith (Env.mk false (fun _ => (none : Option Unit)) (fun _ k => (Except.ok (0 : Nat), k)))
        1 (LockedKernel.new Unit 4 false) Trace.zero =
      some (Except.error GPUError.KernelUninitialized, ⟨4, false, none⟩, ⟨1, 1, 0, 0⟩) :=
  ⟨rfl, rfl, with_uninitialized_fallback _ 4 false 0 rfl rfl⟩

/-- C4: a closure failing with a non-`GPUTaken` error on its first invocation
makes `with` return that same error immediately: the closure runs exactly
once, the kernel handle is not freed (it stays in the slot), and the factory
runs exactly once (the initial lazy init). -/
theorem with_non_preemption_error_terminal {K R : Type} (env : Env K R) (log_d : Nat)
    (prio : Bool) (k₀ : K) (e : GPUError) (hg : env.no_gpu = false)
    (hf : env.factory 0 = some k₀) (hc : (env.closure 0 k₀).1 = Except.error e)
    (he : e ≠ GPUError.GPUTaken) :
    runWith env 1 (LockedKernel.new K log_d prio) Trace.zero =
      some (Except.error e, ⟨log_d, prio, some (env.closure 0 k₀).2⟩, ⟨1, 1, 1, 0⟩) := by
  simp [runWith, hg, LockedKernel.new, LockedKernel.init, Trace.zero, hf, runWithLoop, hc, he]

/-- Witness for `with_non_preemption_error_terminal` at a concrete
environment whose closure fails with `Other "boom"` straight away. -/
theorem with_non_preemption_error_terminal_witness :
    (Env.mk false (fun _ => some ()) (fun _ k => (Except.error (GPUError.Other "boom"), k))
        : Env Unit Nat).no_gpu = false ∧
    (Env.mk false (fun _ => some ()) (fun _ k => (Except.error (GPUError.Other "boom"), k))
        : Env Unit Nat).factory 0 = some () ∧
    GPUError.Other "boom" ≠ GPUError.GPUTaken ∧
    runWith (Env.mk false (fun _ => some ())
        (fun _ k => (Except.error (GPUError.Other "boom"), k)) : Env Unit Nat)
        1 (LockedKernel.new Unit 2 true) Trace.zero =
      some (Except.error (GPUError.Other "boom"), ⟨2, true, some ()⟩, ⟨1, 1, 1, 0⟩) :=
  ⟨rfl, rfl, by decide,
   with_non_preemption_error_terminal _ 2 true () (GPUError.Other "boom") rfl rfl rfl
     (by decide)⟩

/-- Any error returned by the retry loop is never `GPUTaken`, and is either
`KernelUninitialized` (absent kernel) or an error the closure itself
produced on some invocation. -/
theorem runWithLoop_error_source {K R : Type} (env : Env K R) (fuel : Nat) :
    ∀ (s : LockedKernel K) (t : Trace) (e : GPUError) (s' : LockedKernel K) (t' : Trace),
      runWithLoop env fuel s t = some (Except.error e, s', t') →
      e ≠ GPUError.GPUTaken ∧
        (e = GPUError.KernelUninitialized ∨
          ∃ i k, (env.closure i k).1 = Except.error e) := by
  induction fuel with
  | zero =>
    intro s t e s' t' h
    simp [runWithLoop] at h
  | succ n ih =>
    intro s t e s' t' h
    cases hk : s.kernel with
    | none =>
      simp [runWithLoop, hk] at h
      obtain ⟨he, -, -⟩ := h
      exact ⟨by rw [← he]; decide, Or.inl he.symm⟩
    | some k =>
      simp only [runWithLoop, hk] at h
      cases hc : (env.closure t.closureCalls k).1 with
      | ok v => simp [hc] at h
      | error e₀ =>
        by_cases hte : e₀ = GPUError.GPUTaken
        · simp [hc, hte] at h
          exact ih _ _ _ _ _ h
        · simp [hc, hte] at h
          obtain ⟨he, -, -⟩ := h
          subst he
          exact ⟨hte, Or.inr ⟨t.closureCalls, k, hc⟩⟩

/-- C2: `with` never returns `GPUTaken` to its caller: every `GPUTaken` from
the closure is consumed by the free-and-reinit retry loop, and the only
surfaced errors are `GPUDisabled`, `KernelUninitialized`, or an error the
closure itself produced (passed through verbatim). -/
theorem with_never_surfaces_gputaken {K R : Type} (env : Env K R) (fuel : Nat)
    (s : LockedKernel K) (t : Trace) (e : GPUError) (s' : LockedKernel K) (t' : Trace)
    (h : runWith env fuel s t = some (Except.error e, s', t')) :
    e ≠ GPUError.GPUTaken ∧
      (e = GPUError.GPUDisabled ∨ e = GPUError.KernelUninitialized ∨
        ∃ i k, (env.closure i k).1 = Except.error e) := by
  by_cases hg : env.no_gpu = true
  · simp [runWith, hg] at h
    obtain ⟨he, -, -⟩ := h
    exact ⟨by rw [← he]; decide, Or.inl he.symm⟩
  · simp only [runWith, if_neg hg] at h
    obtain ⟨hne, hsrc⟩ := runWithLoop_error_source env fuel _ _ _ _ _ h
    rcases hsrc with h1 | h2
    · exact ⟨hne, Or.inr (Or.inl h1)⟩
    · exact ⟨hne, Or.inr (Or.inr h2)⟩

/-- Witness for `with_never_surfaces_gputaken`: the `KernelUninitialized`
return of a failed init is not `GPUTaken`. -/
theorem with_never_surfaces_gputaken_witness :
    runWith (Env.mk false (fun _ => (none : Option Unit)) (fun _ k => (Except.ok (0 : Nat), k)))
        1 (LockedKernel.new Unit 0 false) Trace.zero =
      some (Except.error GPUError.KernelUninitialized, ⟨0, false, none⟩, ⟨1, 1, 0, 0⟩) ∧
    GPUError.KernelUninitialized ≠ GPUError.GPUTaken :=
  ⟨rfl,
   (with_never_surfaces_gputaken
      (Env.mk false (fun _ => (none : Option Unit)) (fun _ k => (Except.ok (0 : Nat), k)))
      1 (LockedKernel.new Unit 0 false) Trace.zero GPUError.KernelUninitialized
      ⟨0, false, none⟩ ⟨1, 1, 0, 0⟩ rfl).1⟩

/-- Retry-loop convergence, stated for an arbitrary starting point of the
loop: if the kernel is present, the factory always yields a handle, the next
`d` closure invocations return `GPUTaken` and the one after returns `Ok v`,
then the loop returns `Ok v` after exactly `d` extra `free` calls, `d` extra
factory calls and `d + 1` extra closure calls. -/
theorem retry_loop_converges {K R : Type} (env : Env K R) (v : R)
    (hfac : ∀ i, (env.factory i).isSome) :
    ∀ (d : Nat) (s : LockedKernel K) (t : Trace),
      s.kernel.isSome →
      (∀ i k, t.closureCalls ≤ i → i < t.closureCalls + d →
        (env.closure i k).1 = Except.error GPUError.GPUTaken) →
      (∀ k, (env.closure (t.closureCalls + d) k).1 = Except.ok v) →
      ∃ s' t', runWithLoop env (d + 1) s t = some (Except.ok v, s', t') ∧
        t'.freeCalls = t.freeCalls + d ∧
        t'.factoryCalls = t.factoryCalls + d ∧
        t'.closureCalls = t.closureCalls + d + 1 ∧
        t'.waitCalls = t.waitCalls + d := by
  intro d
  induction d with
  | zero =>
    intro s t hs htaken hok
    obtain ⟨k, hk⟩ := Option.isSome_iff_exists.mp hs
    have hok' := hok k
    rw [Nat.add_zero] at hok'
    refine ⟨⟨s.log_d, s.priority, some (env.closure t.closureCalls k).2⟩,
      ⟨t.waitCalls, t.factoryCalls, t.closureCalls + 1, t.freeCalls⟩,
      ?_, by simp, by simp, by simp, by simp⟩
    simp [runWithLoop, hk, hok']
  | succ d ih =>
    intro s t hs htaken hok
    obtain ⟨k, hk⟩ := Option.isSome_iff_exists.mp hs
    have htk : (env.closure t.closureCalls k).1 = Except.error GPUError.GPUTaken :=
      htaken t.closureCalls k (Nat.le_refl _) (by omega)
    have hstep : runWithLoop env (d + 1 + 1) s t =
        runWithLoop env (d + 1) ⟨s.log_d, s.priority, env.factory t.factoryCalls⟩
          ⟨t.waitCalls + 1, t.factoryCalls + 1, t.closureCalls + 1, t.freeCalls + 1⟩ := by
      simp [runWithLoop, hk, htk, LockedKernel.free, LockedKernel.init]
    obtain ⟨s', t', hrun, h1, h2, h3, h4⟩ :=
      ih ⟨s.log_d, s.priority, env.factory t.factoryCalls⟩
        ⟨t.waitCalls + 1, t.factoryCalls + 1, t.closureCalls + 1, t.freeCalls + 1⟩
        (hfac t.factoryCalls)
        (fun i k hle hlt => by
          simp at hle hlt
          exact htaken i k (by omega) (by omega))
        (fun k => by
          have := hok k
          have heq : t.closureCalls + 1 + d = t.closureCalls + (d + 1) := by omega
          simpa [heq] using this)
    refine ⟨s', t', ?_, by simp at h1 ⊢; omega, by simp at h2 ⊢; omega,
      by simp at h3 ⊢; omega, by simp at h4 ⊢; omega⟩
    rw [hstep]
    exact hrun

/-- C1: with the disable switch unset, a factory that always yields a handle,
and a closure that returns `GPUTaken` on exactly its first `N` invocations
and then succeeds with `v`, `with` on a fresh (`Uninitialized`) slot returns
`Ok v` with exactly `N` `free`+reinit cycles and `N + 1` factory invocations
(`N + 1` closure invocations, `N + 1` `PriorityLock::wait` invocations). -/
theorem with_retry_convergence {K R : Type} (env : Env K R) (N : Nat) (v : R)
    (log_d : Nat) (prio : Bool) (hg : env.no_gpu = false)
    (hfac : ∀ i, (env.factory i).isSome)
    (htaken : ∀ i k, i < N → (env.closure i k).1 = Except.error GPUError.GPUTaken)
    (hok : ∀ k, (env.closure N k).1 = Except.ok v) :
    (runWith env (N + 1) (LockedKernel.new K log_d prio) Trace.zero).map
        (fun r => (r.1, r.2.2.freeCalls, r.2.2.factoryCalls, r.2.2.closureCalls)) =
      some (Except.ok v, N, N + 1, N + 1) := by
  have h0 : runWith env (N + 1) (LockedKernel.new K log_d prio) Trace.zero =
      runWithLoop env (N + 1) ⟨log_d, prio, env.factory 0⟩ ⟨1, 1, 0, 0⟩ := by
    simp [runWith, hg, LockedKernel.new, LockedKernel.init, Trace.zero]
  obtain ⟨s', t', hrun, h1, h2, h3, h4⟩ :=
    retry_loop_converges env v hfac N ⟨log_d, prio, env.factory 0⟩ ⟨1, 1, 0, 0⟩
      (hfac 0) (fun i k hle hlt => htaken i k (by simpa using hlt))
      (fun k => by simpa using hok k)
  rw [h0, hrun]
  show some (Except.ok v, t'.freeCalls, t'.factoryCalls, t'.closureCalls) =
    some (Except.ok v, N, N + 1, N + 1)
  have e1 : t'.freeCalls = 0 + N := h1
  have e2 : t'.factoryCalls = 1 + N := h2
  have e3 : t'.closureCalls = 0 + N + 1 := h3
  simp only [e1, e2, e3, Nat.zero_add, Nat.add_comm 1 N]

/-- Witness for `with_retry_convergence`: a closure preempted exactly twice
and then succeeding with `42` converges in three closure calls, two frees and
three factory calls. -/
theorem with_retry_convergence_witness :
    (runWith (Env.mk false (fun _ => some ())
          (fun i k => if i < 2 then (Except.error GPUError.GPUTaken, k)
            else (Except.ok (42 : Nat), k)))
        3 (LockedKernel.new Unit 5 false) Trace.zero).map
        (fun r => (r.1, r.2.2.freeCalls, r.2.2.factoryCalls, r.2.2.closureCalls)) =
      some (Except.ok 42, 2, 3, 3) :=
  with_retry_convergence
    (Env.mk false (fun _ => some ())
      (fun i k => if i < 2 then (Except.error GPUError.GPUTaken, k)
        else (Except.ok (42 : Nat), k)))
    2 42 5 false rfl (fun i => rfl)
    (fun i k hik => by simp [hik])
    (fun k => by simp)

/-- When the retry loop returns `Ok`, the slot it leaves behind still holds a
kernel handle (the success branch returns without calling `free`). -/
theorem runWithLoop_ok_isSome {K R : Type} (env : Env K R) (fuel : Nat) :
    ∀ (s : LockedKernel K) (t : Trace) (v : R) (s' : LockedKernel K) (t' : Trace),
      runWithLoop env fuel s t = some (Except.ok v, s', t') → s'.kernel.isSome := by
  induction fuel with
  | zero =>
    intro s t v s' t' h
    simp [runWithLoop] at h
  | succ n ih =>
    intro s t v s' t' h
    cases hk : s.kernel with
    | none => simp [runWithLoop, hk] at h
    | some k =>
      simp only [runWithLoop, hk] at h
      cases hc : (env.closure t.closureCalls k).1 with
      | ok w =>
        simp [hc] at h
        obtain ⟨-, hs, -⟩ := h
        rw [← hs]
        rfl
      | error e₀ =>
        by_cases hte : e₀ = GPUError.GPUTaken
        · simp [hc, hte] at h
          exact ih _ _ _ _ _ h
        · simp [hc, hte] at h

/-- C9: the kernel handle is cached across calls: after `with` returns `Ok`,
the slot is still `Active`, and an immediately following `with` call whose
closure succeeds returns `Ok` while invoking neither `PriorityLock::wait` nor
the kernel factory again (and leaves the slot `Active`). -/
theorem with_kernel_cached_after_ok {K R : Type} (env : Env K R) (fuel : Nat)
    (s : LockedKernel K) (t : Trace) (v : R) (s' : LockedKernel K) (t' : Trace)
    (hg : env.no_gpu = false)
    (h : runWith env fuel s t = some (Except.ok v, s', t')) :
    s'.kernel.isSome ∧
      ∀ (env₂ : Env K R) (w : R), env₂.no_gpu = false →
        (∀ k, (env₂.closure t'.closureCalls k).1 = Except.ok w) →
        ∃ s'' t'', runWith env₂ 1 s' t' = some (Except.ok w, s'', t'') ∧
          t''.factoryCalls = t'.factoryCalls ∧ t''.waitCalls = t'.waitCalls ∧
          t''.closureCalls = t'.closureCalls + 1 ∧ s''.kernel.isSome := by
  have hsome : s'.kernel.isSome := by
    simp only [runWith, hg] at h
    exact runWithLoop_ok_isSome env fuel _ _ v s' t' h
  refine ⟨hsome, ?_⟩
  intro env₂ w hg₂ hok
  obtain ⟨k, hk⟩ := Option.isSome_iff_exists.mp hsome
  refine ⟨⟨s'.log_d, s'.priority, some (env₂.closure t'.closureCalls k).2⟩,
    ⟨t'.waitCalls, t'.factoryCalls, t'.closureCalls + 1, t'.freeCalls⟩,
    ?_, rfl, rfl, rfl, rfl⟩
  simp [runWith, hg₂, LockedKernel.init, hk, runWithLoop, hok k]

/-- Witness for `with_kernel_cached_after_ok`: a first call that succeeds
immediately leaves the handle in the slot. -/
theorem with_kernel_cached_after_ok_witness :
    (LockedKernel.mk 0 false (some ()) : LockedKernel Unit).kernel.isSome = true :=
  (with_kernel_cached_after_ok
    (Env.mk false (fun _ => some ()) (fun _ k => (Except.ok (7 : Nat), k)))
    1 (LockedKernel.new Unit 0 false) Trace.zero 7 ⟨0, false, some ()⟩ ⟨1, 1, 1, 0⟩
    rfl rfl).1

/-- Loop exit from a closure condition: if `d` calls ahead the closure is
guaranteed (for every kernel) not to return `GPUTaken`, the loop returns
within `d + 1` iterations. -/
theorem runWithLoop_term_of_closure {K R : Type} (env : Env K R) :
    ∀ (d : Nat) (s : LockedKernel K) (t : Trace),
      (∀ k, (env.closure (t.closureCalls + d) k).1 ≠ Except.error GPUError.GPUTaken) →
      ∃ r, runWithLoop env (d + 1) s t = some r := by
  intro d
  induction d with
  | zero =>
    intro s t hnt
    cases hk : s.kernel with
    | none => simp [runWithLoop, hk]
    | some k =>
      cases hc : (env.closure t.closureCalls k).1 with
      | ok v => simp [runWithLoop, hk, hc]
      | error e₀ =>
        have hne : e₀ ≠ GPUError.GPUTaken := by
          intro he
          exact hnt k (by rw [Nat.add_zero, hc, he])
        simp [runWithLoop, hk, hc, hne]
  | succ d ih =>
    intro s t hnt
    cases hk : s.kernel with
    | none => simp [runWithLoop, hk]
    | some k =>
      cases hc : (env.closure t.closureCalls k).1 with
      | ok v => simp [runWithLoop, hk, hc]
      | error e₀ =>
        by_cases hte : e₀ = GPUError.GPUTaken
        · obtain ⟨r, hr⟩ := ih ⟨s.log_d, s.priority, env.factory t.factoryCalls⟩
            ⟨t.waitCalls + 1, t.factoryCalls + 1, t.closureCalls + 1, t.freeCalls + 1⟩
            (fun k' => by
              have := hnt k'
              have heq : t.closureCalls + (d + 1) = t.closureCalls + 1 + d := by omega
              rw [heq] at this
              exact this)
          refine ⟨r, ?_⟩
          simpa [runWithLoop, hk, hc, hte, LockedKernel.free, LockedKernel.init] using hr
        · simp [runWithLoop, hk, hc, hte]

/-- Loop exit from a factory condition: if the factory returns `none` `d`
re-initializations ahead, the loop returns within `d + 2` iterations
(each iteration either exits or performs exactly one factory call). -/
theorem runWithLoop_term_of_factory {K R : Type} (env : Env K R) :
    ∀ (d : Nat) (s : LockedKernel K) (t : Trace),
      env.factory (t.factoryCalls + d) = none →
      ∃ r, runWithLoop env (d + 2) s t = some r := by
  intro d
  induction d with
  | zero =>
    intro s t hf
    cases hk : s.kernel with
    | none => simp [runWithLoop, hk]
    | some k =>
      cases hc : (env.closure t.closureCalls k).1 with
      | ok v => simp [runWithLoop, hk, hc]
      | error e₀ =>
        by_cases hte : e₀ = GPUError.GPUTaken
        · rw [Nat.add_zero] at hf
          simp [runWithLoop, hk, hc, hte, LockedKernel.free, LockedKernel.init, hf]
        · simp [runWithLoop, hk, hc, hte]
  | succ d ih =>
    intro s t hf
    cases hk : s.kernel with
    | none => simp [runWithLoop, hk]
    | some k =>
      cases hc : (env.closure t.closureCalls k).1 with
      | ok v => simp [runWithLoop, hk, hc]
      | error e₀ =>
        by_cases hte : e₀ = GPUError.GPUTaken
        · obtain ⟨r, hr⟩ := ih ⟨s.log_d, s.priority, env.factory t.factoryCalls⟩
            ⟨t.waitCalls + 1, t.factoryCalls + 1, t.closureCalls + 1, t.freeCalls + 1⟩
            (by
              have heq : t.factoryCalls + 1 + d = t.factoryCalls + (d + 1) := by omega
              rw [heq]
              exact hf)
          refine ⟨r, ?_⟩
          simpa [runWithLoop, hk, hc, hte, LockedKernel.free, LockedKernel.init] using hr
        · simp [runWithLoop, hk, hc, hte]

/-- If the closure always returns `GPUTaken` and the factory always yields a
handle, the loop starting from a slot that holds a kernel exhausts any amount
of fuel without returning. -/
theorem runWithLoop_diverges {K R : Type} (env : Env K R)
    (hc : ∀ i k, (env.closure i k).1 = Except.error GPUError.GPUTaken)
    (hf : ∀ i, (env.factory i).isSome) :
    ∀ (fuel : Nat) (s : LockedKernel K) (t : Trace), s.kernel.isSome →
      runWithLoop env fuel s t = none := by
  intro fuel
  induction fuel with
  | zero => intro s t _; rfl
  | succ n ih =>
    intro s t hs
    obtain ⟨k, hk⟩ := Option.isSome_iff_exists.mp hs
    have hstep : runWithLoop env (n + 1) s t =
        runWithLoop env n ⟨s.log_d, s.priority, env.factory t.factoryCalls⟩
          ⟨t.waitCalls + 1, t.factoryCalls + 1, t.closureCalls + 1, t.freeCalls + 1⟩ := by
      simp [runWithLoop, hk, hc t.closureCalls k, LockedKernel.free, LockedKernel.init]
    rw [hstep]
    exact ih _ _ (hf t.factoryCalls)

/-- C3: the retry loop terminates exactly under the spec's three exit
conditions.  Starting `with` on a fresh slot with the disable switch unset:
if some closure invocation is guaranteed not to return `GPUTaken` (it
succeeds or fails otherwise), or some factory invocation fails to produce a
handle, then some finite fuel makes the loop return; conversely, if the
closure returns `GPUTaken` forever and the factory always yields a handle,
no amount of fuel makes the loop return. -/
theorem with_loop_termination_conditions {K R : Type} (env : Env K R)
    (log_d : Nat) (prio : Bool) (hg : env.no_gpu = false) :
    (((∃ n, ∀ k, (env.closure n k).1 ≠ Except.error GPUError.GPUTaken) ∨
        (∃ n, env.factory n = none)) →
      ∃ fuel r, runWith env fuel (LockedKernel.new K log_d prio) Trace.zero = some r) ∧
    (((∀ i k, (env.closure i k).1 = Except.error GPUError.GPUTaken) ∧
        (∀ i, (env.factory i).isSome)) →
      ∀ fuel, runWith env fuel (LockedKernel.new K log_d prio) Trace.zero = none) := by
  have h0 : ∀ fuel, runWith env fuel (LockedKernel.new K log_d prio) Trace.zero =
      runWithLoop env fuel ⟨log_d, prio, env.factory 0⟩ ⟨1, 1, 0, 0⟩ := by
    intro fuel
    simp [runWith, hg, LockedKernel.new, LockedKernel.init, Trace.zero]
  constructor
  · rintro (⟨n, hn⟩ | ⟨n, hn⟩)
    · obtain ⟨r, hr⟩ := runWithLoop_term_of_closure env n
        ⟨log_d, prio, env.factory 0⟩ ⟨1, 1, 0, 0⟩ (fun k => by simpa using hn k)
      exact ⟨n + 1, r, by rw [h0]; exact hr⟩
    · cases n with
      | zero =>
        refine ⟨1, (Except.error GPUError.KernelUninitialized,
          ⟨log_d, prio, none⟩, ⟨1, 1, 0, 0⟩), ?_⟩
        rw [h0]
        simp [runWithLoop, hn]
      | succ m =>
        obtain ⟨r, hr⟩ := runWithLoop_term_of_factory env m
          ⟨log_d, prio, env.factory 0⟩ ⟨1, 1, 0, 0⟩
          (by
            have heq : (1 : Nat) + m = m + 1 := by omega
            show env.factory (1 + m) = none
            rw [heq]
            exact hn)
        exact ⟨m + 2, r, by rw [h0]; exact hr⟩
  · rintro ⟨hc, hf⟩ fuel
    rw [h0]
    exact runWithLoop_diverges env hc hf fuel _ _ (hf 0)

/-- Witness for `with_loop_termination_conditions`: a closure preempted
forever with an always-succeeding factory exhausts fuel 5 without the loop
returning. -/
theorem with_loop_termination_conditions_witness :
    runWith (Env.mk false (fun _ => some ())
        (fun _ k => (Except.error GPUError.GPUTaken, k)) : Env Unit Nat)
      5 (LockedKernel.new Unit 0 false) Trace.zero = none :=
  (with_loop_termination_conditions
    (Env.mk false (fun _ => some ()) (fun _ k => (Except.error GPUError.GPUTaken, k)))
    0 false rfl).2 ⟨fun _ _ => rfl, fun _ => rfl⟩ 5

end GpuLocks
